import Mathlib

set_option maxRecDepth 100000

/-!
Shallow embedding of `w3act/dbc/generate/title_records.py`
(`GenerateW3ACTTitleExport.run` and its helpers), faithful to the Python
semantics: dict access `t[k]` raises `KeyError` when the key is missing,
`t.get(k, d)` defaults, `datetime.strptime` follows CPython `_strptime`
regex matching, `timedelta.days` is floor division of the elapsed seconds.
-/

/-! ### Byte-level helpers: UTF-8 (`url.encode('utf-8')`), base64
(`base64.b64encode`), MD5 (`hashlib.md5(...).digest()`). -/

def utf8EncodeChar (c : Char) : List Nat :=
  let n := c.toNat
  if n < 128 then [n]
  else if n < 2048 then [192 + n / 64, 128 + n % 64]
  else if n < 65536 then [224 + n / 4096, 128 + (n / 64) % 64, 128 + n % 64]
  else [240 + n / 262144, 128 + (n / 4096) % 64, 128 + (n / 64) % 64, 128 + n % 64]

def utf8Encode (s : String) : List Nat :=
  (s.toList.map utf8EncodeChar).flatten

def b64Alphabet : List Char :=
  "ABCDEFGHIJKLMNOPQRSTUVWXYZabcdefghijklmnopqrstuvwxyz0123456789+/".toList

def b64Digit (n : Nat) : Char := b64Alphabet.getD n 'A'

def b64encodeChars : List Nat → List Char
  | [] => []
  | [a] => [b64Digit (a / 4), b64Digit (a % 4 * 16), '=', '=']
  | [a, b] => [b64Digit (a / 4), b64Digit (a % 4 * 16 + b / 16), b64Digit (b % 16 * 4), '=']
  | a :: b :: c :: rest =>
      b64Digit (a / 4) :: b64Digit (a % 4 * 16 + b / 16) :: b64Digit (b % 16 * 4 + c / 64) ::
        b64Digit (c % 64) :: b64encodeChars rest

def b64encode (bytes : List Nat) : String := String.mk (b64encodeChars bytes)

def mask32 : Nat := 4294967296

def add32 (a b : Nat) : Nat := (a + b) % mask32

def not32 (a : Nat) : Nat := 4294967295 - a

def rotl32 (x s : Nat) : Nat := (x * 2 ^ s) % mask32 + x / 2 ^ (32 - s)

def md5F (b c d : Nat) : Nat := Nat.lor (Nat.land b c) (Nat.land (not32 b) d)

def md5G (b c d : Nat) : Nat := Nat.lor (Nat.land d b) (Nat.land (not32 d) c)

def md5H (b c d : Nat) : Nat := Nat.xor b (Nat.xor c d)

def md5I (b c d : Nat) : Nat := Nat.xor c (Nat.lor b (not32 d))

def md5K : List Nat :=
  [0xd76aa478, 0xe8c7b756, 0x242070db, 0xc1bdceee,
   0xf57c0faf, 0x4787c62a, 0xa8304613, 0xfd469501,
   0x698098d8, 0x8b44f7af, 0xffff5bb1, 0x895cd7be,
   0x6b901122, 0xfd987193, 0xa679438e, 0x49b40821,
   0xf61e2562, 0xc040b340, 0x265e5a51, 0xe9b6c7aa,
   0xd62f105d, 0x02441453, 0xd8a1e681, 0xe7d3fbc8,
   0x21e1cde6, 0xc33707d6, 0xf4d50d87, 0x455a14ed,
   0xa9e3e905, 0xfcefa3f8, 0x676f02d9, 0x8d2a4c8a,
   0xfffa3942, 0x8771f681, 0x6d9d6122, 0xfde5380c,
   0xa4beea44, 0x4bdecfa9, 0xf6bb4b60, 0xbebfbc70,
   0x289b7ec6, 0xeaa127fa, 0xd4ef3085, 0x04881d05,
   0xd9d4d039, 0xe6db99e5, 0x1fa27cf8, 0xc4ac5665,
   0xf4292244, 0x432aff97, 0xab9423a7, 0xfc93a039,
   0x655b59c3, 0x8f0ccc92, 0xffeff47d, 0x85845dd1,
   0x6fa87e4f, 0xfe2ce6e0, 0xa3014314, 0x4e0811a1,
   0xf7537e82, 0xbd3af235, 0x2ad7d2bb, 0xeb86d391]

def md5S : List Nat :=
  [7, 12, 17, 22, 7, 12, 17, 22, 7, 12, 17, 22, 7, 12, 17, 22,
   5, 9, 14, 20, 5, 9, 14, 20, 5, 9, 14, 20, 5, 9, 14, 20,
   4, 11, 16, 23, 4, 11, 16, 23, 4, 11, 16, 23, 4, 11, 16, 23,
   6, 10, 15, 21, 6, 10, 15, 21, 6, 10, 15, 21, 6, 10, 15, 21]

def leBytes (w nbytes : Nat) : List Nat :=
  (List.range nbytes).map (fun i => w / 256 ^ i % 256)

def md5Pad (msg : List Nat) : List Nat :=
  let len := msg.length
  msg ++ [128] ++ List.replicate ((64 + 56 - (len + 1) % 64) % 64) 0 ++
    leBytes (len * 8 % 2 ^ 64) 8

def chunks64Go : Nat → List Nat → List (List Nat)
  | 0, _ => []
  | _ + 1, [] => []
  | fuel + 1, l => l.take 64 :: chunks64Go fuel (l.drop 64)

def chunks64 (l : List Nat) : List (List Nat) := chunks64Go l.length l

def toWordsLE : List Nat → List Nat
  | a :: b :: c :: d :: rest => (a + 256 * b + 65536 * c + 16777216 * d) :: toWordsLE rest
  | _ => []

def md5Round (m : List Nat) (st : Nat × Nat × Nat × Nat) (i : Nat) : Nat × Nat × Nat × Nat :=
  let (a, b, c, d) := st
  let fg : Nat × Nat :=
    if i < 16 then (md5F b c d, i)
    else if i < 32 then (md5G b c d, (5 * i + 1) % 16)
    else if i < 48 then (md5H b c d, (3 * i + 5) % 16)
    else (md5I b c d, (7 * i) % 16)
  let f := add32 (add32 (add32 fg.1 a) (md5K.getD i 0)) (m.getD fg.2 0)
  (d, add32 b (rotl32 f (md5S.getD i 0)), b, c)

def md5Chunk (st : Nat × Nat × Nat × Nat) (chunk : List Nat) : Nat × Nat × Nat × Nat :=
  let m := toWordsLE chunk
  let r := (List.range 64).foldl (md5Round m) st
  (add32 st.1 r.1, add32 st.2.1 r.2.1, add32 st.2.2.1 r.2.2.1, add32 st.2.2.2 r.2.2.2)

def md5Bytes (msg : List Nat) : List Nat :=
  let r := (chunks64 (md5Pad msg)).foldl md5Chunk (0x67452301, 0xefcdab89, 0x98badcfe, 0x10325476)
  leBytes r.1 4 ++ leBytes r.2.1 4 ++ leBytes r.2.2.1 4 ++ leBytes r.2.2.2 4

/-! ### Calendar arithmetic and `datetime` model.

`datetime.datetime` values are modelled by their six components; subtraction
goes through `toSecondsDT` (proleptic Gregorian ordinal, as CPython's
`datetime.toordinal`), and `timedelta.days` is floor division by 86400. -/

structure PyDateTime where
  year : Nat
  month : Nat
  day : Nat
  hour : Nat
  minute : Nat
  second : Nat
deriving DecidableEq, Repr

def isLeap (y : Nat) : Bool := (y % 4 == 0 && y % 100 != 0) || y % 400 == 0

def daysInMonth (y m : Nat) : Nat :=
  if m = 2 then (if isLeap y then 29 else 28)
  else if m = 4 ∨ m = 6 ∨ m = 9 ∨ m = 11 then 30
  else 31

def daysBeforeYear (y : Nat) : Nat :=
  (y - 1) * 365 + (y - 1) / 4 - (y - 1) / 100 + (y - 1) / 400

def daysBeforeMonth (y m : Nat) : Nat :=
  (List.range (m - 1)).foldl (fun acc i => acc + daysInMonth y (i + 1)) 0

def toSecondsDT (dt : PyDateTime) : Nat :=
  (daysBeforeYear dt.year + daysBeforeMonth dt.year dt.month + (dt.day - 1)) * 86400 +
    dt.hour * 3600 + dt.minute * 60 + dt.second

def padNum (w n : Nat) : String :=
  let s := toString n
  String.mk (List.replicate (w - s.length) '0') ++ s

def isoformat (dt : PyDateTime) : String :=
  padNum 4 dt.year ++ "-" ++ padNum 2 dt.month ++ "-" ++ padNum 2 dt.day ++ "T" ++
    padNum 2 dt.hour ++ ":" ++ padNum 2 dt.minute ++ ":" ++ padNum 2 dt.second

/-- `timedelta.days` of an elapsed interval given in whole seconds:
floor division, as in CPython `timedelta` normalisation. -/
def timedeltaDays (delta : Int) : Int := Int.fdiv delta 86400

/-! ### `datetime.strptime(s, '%Y%m%d%H%M%S')`.

CPython `_strptime` compiles the format to the regex
`(?P<Y>\d\d\d\d)(?P<m>1[0-2]|0[1-9]|[1-9])(?P<d>3[01]|[12]\d|0[1-9]|[1-9])`
`(?P<H>2[0-3]|[0-1]\d|\d)(?P<M>[0-5]\d|\d)(?P<S>6[0-1]|[0-5]\d|\d)`,
takes the first backtracking match, raises ValueError if characters remain
unconverted, and finally validates the fields through the `datetime`
constructor (which also rejects leap seconds and impossible days). -/

def isDigitCh (c : Char) : Bool := '0' ≤ c && c ≤ '9'

def dval (c : Char) : Nat := c.toNat - 48

def matchTwo (p1 p2 : Char → Bool) (s : List Char) : Option (Nat × List Char) :=
  match s with
  | c1 :: c2 :: rest =>
      if p1 c1 && p2 c2 then some (10 * dval c1 + dval c2, rest) else none
  | _ => none

def matchOne (p : Char → Bool) (s : List Char) : Option (Nat × List Char) :=
  match s with
  | c :: rest => if p c then some (dval c, rest) else none
  | _ => none

def chBetween (lo hi : Char) (c : Char) : Bool := lo ≤ c && c ≤ hi

abbrev FieldAlt := List Char → Option (Nat × List Char)

def monthAlts : List FieldAlt :=
  [matchTwo (· = '1') (chBetween '0' '2'), matchTwo (· = '0') (chBetween '1' '9'),
   matchOne (chBetween '1' '9')]

def dayAlts : List FieldAlt :=
  [matchTwo (· = '3') (chBetween '0' '1'), matchTwo (chBetween '1' '2') isDigitCh,
   matchTwo (· = '0') (chBetween '1' '9'), matchOne (chBetween '1' '9')]

def hourAlts : List FieldAlt :=
  [matchTwo (· = '2') (chBetween '0' '3'), matchTwo (chBetween '0' '1') isDigitCh,
   matchOne isDigitCh]

def minuteAlts : List FieldAlt :=
  [matchTwo (chBetween '0' '5') isDigitCh, matchOne isDigitCh]

def secondAlts : List FieldAlt :=
  [matchTwo (· = '6') (chBetween '0' '1'), matchTwo (chBetween '0' '5') isDigitCh,
   matchOne isDigitCh]

/-- First backtracking match of a sequence of fields (alternatives tried in
regex preference order), returning field values and unconsumed characters. -/
def matchSeq : List (List FieldAlt) → List Char → Option (List Nat × List Char)
  | [], s => some ([], s)
  | alts :: fields, s =>
      alts.foldr
        (fun a acc =>
          match a s with
          | none => acc
          | some (v, rest) =>
              match matchSeq fields rest with
              | none => acc
              | some (vs, rest2) => some (v :: vs, rest2))
        none

def strptimeYmdHMS (str : String) : Option PyDateTime :=
  match str.toList with
  | y1 :: y2 :: y3 :: y4 :: rest =>
      if isDigitCh y1 && isDigitCh y2 && isDigitCh y3 && isDigitCh y4 then
        match matchSeq [monthAlts, dayAlts, hourAlts, minuteAlts, secondAlts] rest with
        | some ([m, d, h, mi, s], leftover) =>
            if leftover.isEmpty then
              let y := 1000 * dval y1 + 100 * dval y2 + 10 * dval y3 + dval y4
              if 1 ≤ y && 1 ≤ m && m ≤ 12 && 1 ≤ d && d ≤ daysInMonth y m &&
                 h ≤ 23 && mi ≤ 59 && s ≤ 59 then
                some ⟨y, m, d, h, mi, s⟩
              else none
            else none
        | _ => none
      else none
  | _ => none

/-! ### Data model.

Python dicts from the three JSON inputs are modelled as structures whose
fields are `Option`-valued exactly where the code tolerates their absence:
`t[k]` on a missing key raises `KeyError`, `t.get(k, d)` defaults to `d`. -/

inductive PyError where
  | keyError (field : String)
  | valueError (msg : String)
deriving DecidableEq, Repr

def getKey {α : Type} (field : String) : Option α → Except PyError α
  | some v => .ok v
  | none => .error (.keyError field)

structure Target where
  crawl_frequency : Option String
  title : Option String
  urls : Option (List String)
  isNPLD : Option Bool
  isOA : Option Bool
  subject_ids : Option (List Int)
deriving DecidableEq, Repr

structure Collection where
  id : Int
  publish : Bool
deriving DecidableEq, Repr

structure Subject where
  id : Int
  name : Option String
  publish : Bool
deriving DecidableEq, Repr

/-- One output record (the Python dict `rec`). `subject` is
`none` when the key is absent, `some none` when present with value `None`. -/
structure Rec where
  id : String
  date : String
  url : String
  title : String
  rights : String
  publisher : String
  wayback_url : String
  subject : Option (Option String)
deriving DecidableEq, Repr

structure Counters where
  record_count : Nat
  blocked_record_count : Nat
  missing_record_count : Nat
  embargoed_record_count : Nat
deriving DecidableEq, Repr

inductive Outcome where
  | blocked
  | skippedNoUrl
  | missing
  | embargoed
  | published (r : Rec)
deriving DecidableEq, Repr

/-- The run's external collaborators and ambient time:
`cdx` is `CdxIndex().get_first_capture_date`, `registeredDomain` is
`tldextract.extract(url).registered_domain`, `nowSec` is
`datetime.datetime.now()` in seconds on the same proleptic ordinal scale. -/
structure Env where
  cdx : String → Option String
  registeredDomain : String → String
  nowSec : Int
  subjectsById : Int → Option Subject

/-! ### Indexing of collections and subjects (lines 44-56). -/

def buildCollectionsById (collections : List Collection) : Int → Option Collection :=
  collections.foldl (fun m col => fun i => if i = col.id then some col else m i)
    (fun _ => none)

def buildSubjectsById (subjects : List Subject) : Int → Option Subject :=
  subjects.foldl (fun m sub => fun i => if i = sub.id then some sub else m i)
    (fun _ => none)

def collectionPublishedCount (collections : List Collection) : Nat :=
  collections.foldl (fun n col => if col.publish then n + 1 else n) 0

def subjectPublishedCount (subjects : List Subject) : Nat :=
  subjects.foldl (fun n sub => if sub.publish then n + 1 else n) 0

/-! ### Per-target pipeline (lines 60-118). -/

def freeRights : String := "***Free access"

def readingRoomRights : String := "***Available only in our Reading Rooms"

def openWaybackBase : String := "https://www.webarchive.org.uk/wayback/archive/"

def ldlsWaybackBase : String := "https://bl.ldls.org.uk/welcome.html?"

def mkRecordId (wayback_date_str url : String) : String :=
  wayback_date_str ++ "/" ++ b64encode (md5Bytes (utf8Encode url))

/-- One loop body of lines 60-118. A missing key read with `target[k]`
raises `KeyError` (so the `Except` is an error); `target.get(k, d)`
defaults. Note the direct accesses `target['title']` on lines 63 and 94
and `target['isNPLD']` on line 80 and `target['subject_ids']` on line 112. -/
def processTarget (env : Env) (t : Target) : Except PyError Outcome :=
  match t.crawl_frequency with
  | none => .error (.keyError "crawl_frequency")
  | some cf =>
    if cf = "NEVERCRAWL" then
      match t.title with
      | none => .error (.keyError "title")
      | some _ => .ok .blocked
    else
      match t.urls.getD [] with
      | [] => .ok .skippedNoUrl
      | url :: _ =>
        let publisher := env.registeredDomain url
        match env.cdx url with
        | none =>
            match t.isNPLD with
            | none => .error (.keyError "isNPLD")
            | some _ => .ok .missing
        | some wayback_date_str =>
          match strptimeYmdHMS wayback_date_str with
          | none => .error (.valueError "time data does not match format")
          | some wayback_date =>
            let first_date := isoformat wayback_date
            if timedeltaDays (env.nowSec - (toSecondsDT wayback_date : Int)) ≤ 7 then
              .ok .embargoed
            else
              let record_id := mkRecordId wayback_date_str url
              match t.title with
              | none => .error (.keyError "title")
              | some title =>
                let rw : String × String :=
                  if t.isOA.getD false then
                    (freeRights, openWaybackBase ++ wayback_date_str ++ "/" ++ url)
                  else
                    (readingRoomRights, ldlsWaybackBase ++ wayback_date_str ++ "/" ++ url)
                match t.subject_ids with
                | none => .error (.keyError "subject_ids")
                | some subject_ids =>
                  let subject : Option (Option String) :=
                    if subject_ids.length > 0 then
                      some (match env.subjectsById (subject_ids.headD 0) with
                        | some sub0 => sub0.name
                        | none => none)
                    else none
                  .ok (.published
                    ⟨record_id, first_date, url, title, rw.1, publisher, rw.2, subject⟩)

/-- The target loop: sequential processing, first raised error aborts the
whole run, records appended in input order, counters start at zero. -/
def runTargets (env : Env) : List Target → Except PyError (List Rec × Counters)
  | [] => .ok ([], ⟨0, 0, 0, 0⟩)
  | t :: ts =>
      match processTarget env t with
      | .error e => .error e
      | .ok o =>
        match runTargets env ts with
        | .error e => .error e
        | .ok (recs, c) =>
          match o with
          | .blocked =>
              .ok (recs, { c with blocked_record_count := c.blocked_record_count + 1 })
          | .skippedNoUrl => .ok (recs, c)
          | .missing =>
              .ok (recs, { c with missing_record_count := c.missing_record_count + 1 })
          | .embargoed =>
              .ok (recs, { c with embargoed_record_count := c.embargoed_record_count + 1 })
          | .published r => .ok (r :: recs, { c with record_count := c.record_count + 1 })

deriving instance DecidableEq for Except

/-- Number of targets of a run that fall into the silent fifth bucket
(no URLs, line 69-71): no record, none of the four counters. -/
def silentSkipCount (env : Env) (ts : List Target) : Nat :=
  ts.countP (fun t => decide (processTarget env t = .ok .skippedNoUrl))

/-! ### XML serialisation (lines 120-159).

The element tree built via `etree.Element`/`etree.SubElement` is modelled
directly; tags carry the Clark-notation namespace prefixes built on
lines 125-127. `text` is `Option String` (`None` allowed, as for the
`dc:subject` of a record whose subject lookup missed). -/

def OAINS : String := "http://www.openarchives.org/OAI/2.0/"

def OAIDCNS : String := "http://www.openarchives.org/OAI/2.0/oai_dc/"

def DCNS : String := "http://purl.org/dc/elements/1.1/"

def XLINKNS : String := "http://www.w3.org/1999/xlink"

def OAIDC_B : String := "\x7b" ++ OAIDCNS ++ "\x7d"

def DC_B : String := "\x7b" ++ DCNS ++ "\x7d"

def XLINK_B : String := "\x7b" ++ XLINKNS ++ "\x7d"

inductive XmlElem where
  | mk (tag : String) (text : Option String) (children : List XmlElem)

def XmlElem.tag : XmlElem → String
  | .mk t _ _ => t

def XmlElem.text : XmlElem → Option String
  | .mk _ x _ => x

def XmlElem.children : XmlElem → List XmlElem
  | .mk _ _ c => c

/-- The `record` element built for one `rec` (lines 134-159): header with
identifier, then metadata/dc with children in the fixed source order, and a
`dc:subject` appended exactly when the key `subject` is in the dict. -/
def recordElem (r : Rec) : XmlElem :=
  .mk "record" none
    [.mk "header" none [.mk "identifier" (some r.id) []],
     .mk "metadata" none
       [.mk (OAIDC_B ++ "dc") none
         ([.mk (DC_B ++ "source") (some r.url) [],
           .mk (DC_B ++ "publisher") (some r.publisher) [],
           .mk (DC_B ++ "title") (some r.title) [],
           .mk (DC_B ++ "date") (some r.date) [],
           .mk (DC_B ++ "rights") (some r.rights) [],
           .mk (XLINK_B ++ "href") (some r.wayback_url) []] ++
          (match r.subject with
           | none => []
           | some s => [.mk (DC_B ++ "subject") s []]))]]

def buildXml (records : List Rec) : XmlElem :=
  .mk "OAI-PMH" none [.mk "ListRecords" none (records.map recordElem)]

/-- Read one record back out of its XML element (the parse direction of the
round trip): checks the tag structure and recovers every `Rec` field. -/
def parseRecordElem (e : XmlElem) : Option Rec :=
  match e with
  | .mk rtag none
      [.mk htag none [.mk itag (some iid) []],
       .mk mtag none [.mk dctag none kids]] =>
      if rtag = "record" ∧ htag = "header" ∧ itag = "identifier" ∧
         mtag = "metadata" ∧ dctag = OAIDC_B ++ "dc" then
        match kids with
        | [.mk t1 (some u) [], .mk t2 (some p) [], .mk t3 (some ti) [],
           .mk t4 (some d) [], .mk t5 (some ri) [], .mk t6 (some w) []] =>
            if t1 = DC_B ++ "source" ∧ t2 = DC_B ++ "publisher" ∧ t3 = DC_B ++ "title" ∧
               t4 = DC_B ++ "date" ∧ t5 = DC_B ++ "rights" ∧ t6 = XLINK_B ++ "href" then
              some ⟨iid, d, u, ti, ri, p, w, none⟩
            else none
        | [.mk t1 (some u) [], .mk t2 (some p) [], .mk t3 (some ti) [],
           .mk t4 (some d) [], .mk t5 (some ri) [], .mk t6 (some w) [],
           .mk t7 s []] =>
            if t1 = DC_B ++ "source" ∧ t2 = DC_B ++ "publisher" ∧ t3 = DC_B ++ "title" ∧
               t4 = DC_B ++ "date" ∧ t5 = DC_B ++ "rights" ∧ t6 = XLINK_B ++ "href" ∧
               t7 = DC_B ++ "subject" then
              some ⟨iid, d, u, ti, ri, p, w, some s⟩
            else none
        | _ => none
      else none
  | _ => none

def parseRecList : List XmlElem → Option (List Rec)
  | [] => some []
  | e :: es =>
      match parseRecordElem e, parseRecList es with
      | some r, some rs => some (r :: rs)
      | _, _ => none

def parseListRecords (doc : XmlElem) : Option (List Rec) :=
  match doc with
  | .mk "OAI-PMH" none [.mk "ListRecords" none recElems] => parseRecList recElems
  | _ => none

/-! ### Concrete scenario environments used to evaluate the pipeline. -/

/-- An environment whose capture index answers every URL with `capture`,
with a fixed registered-domain extraction. -/
def testEnv (capture : Option String) (nowSec : Int) (subs : List Subject) : Env :=
  { cdx := fun _ => capture
    registeredDomain := fun _ => "example.com"
    nowSec := nowSec
    subjectsById := buildSubjectsById subs }

/-- A well-formed target: crawlable, one URL, one subject id. -/
def okTarget : Target :=
  { crawl_frequency := some "DAILY"
    title := some "Example Site"
    urls := some ["http://example.com/"]
    isNPLD := some true
    isOA := none
    subject_ids := some [1] }

/-- Does the pipeline publish a record for this outcome? -/
def isPublished : Except PyError Outcome → Bool
  | .ok (.published _) => true
  | _ => false

def politicsSubject : Subject := ⟨1, some "Politics", true⟩

/-- Capture 2013-04-01 12:00:00, now exactly 8 days later, one subject. -/
def pubEnv : Env :=
  testEnv (some "20130401120000") ((toSecondsDT ⟨2013, 4, 1, 12, 0, 0⟩ : Int) + 691200)
    [politicsSubject]

/-- As `pubEnv` but with an empty subject table, so subject lookups miss. -/
def missEnv : Env :=
  testEnv (some "20130401120000") ((toSecondsDT ⟨2013, 4, 1, 12, 0, 0⟩ : Int) + 691200) []

/-- A capture index that only knows `http://example.com/`, observed one
second into the embargo boundary day. -/
def mixEnv : Env :=
  { cdx := fun u => if u = "http://example.com/" then some "20130401120000" else none
    registeredDomain := fun _ => "example.com"
    nowSec := (toSecondsDT ⟨2013, 4, 1, 12, 0, 0⟩ : Int) + 604801
    subjectsById := buildSubjectsById [] }

def blockedTarget : Target := { okTarget with crawl_frequency := some "NEVERCRAWL" }

def noUrlTarget : Target := { okTarget with urls := some [] }

def missingTarget : Target := { okTarget with urls := some ["http://missing.example/"] }

def noTitleTarget : Target := { okTarget with title := none }

def oaTarget : Target := { okTarget with isOA := some true }

def emptySubTarget : Target := { okTarget with subject_ids := some [] }

/-- The record `pubEnv` publishes for `okTarget` (subject lookup hits). -/
def recW : Rec :=
  { id := "20130401120000/pr8XV//wV/JmtpffnPF2/Q=="
    date := "2013-04-01T12:00:00"
    url := "http://example.com/"
    title := "Example Site"
    rights := readingRoomRights
    publisher := "example.com"
    wayback_url := "https://bl.ldls.org.uk/welcome.html?20130401120000/http://example.com/"
    subject := some (some "Politics") }

/-- The record `pubEnv` publishes for `oaTarget`. -/
def recWOA : Rec :=
  { recW with
    rights := freeRights
    wayback_url :=
      "https://www.webarchive.org.uk/wayback/archive/20130401120000/http://example.com/" }

/-- The record `pubEnv` publishes for `emptySubTarget`: no subject key. -/
def recWEmptySub : Rec := { recW with subject := none }

/-- The record `missEnv` publishes for `okTarget`: subject key present with
a `None` value because the lookup missed. -/
def recWMissSub : Rec := { recW with subject := some none }

/-! ## Helper lemmas -/

theorem getLast?_cons_or {α : Type} (a : α) (l : List α) :
    (a :: l).getLast? = Option.or l.getLast? (some a) := by
  cases l with
  | nil => rfl
  | cons b l =>
      rw [List.getLast?_cons_cons]
      cases hx : (b :: l).getLast? with
      | none => simp [List.getLast?_cons] at hx
      | some x => simp

/-- Dict insertion during a left fold is last-write-wins: the final lookup at
`i` returns the last inserted element keyed `i`, falling back to the initial
mapping. -/
theorem foldl_override_apply {α : Type} (key : α → Int) (l : List α)
    (m : Int → Option α) (i : Int) :
    (l.foldl (fun m x => fun j => if j = key x then some x else m j) m) i =
    Option.or ((l.filter (fun x => key x == i)).getLast?) (m i) := by
  induction l generalizing m with
  | nil => simp
  | cons a l ih =>
      simp only [List.foldl_cons, List.filter_cons]
      rw [ih]
      by_cases hk : key a = i
      · simp only [hk, beq_self_eq_true, if_pos]
        rw [getLast?_cons_or, Option.or_assoc]
        simp
      · have : (key a == i) = false := beq_eq_false_iff_ne.mpr hk
        simp only [this, Bool.false_eq_true, if_false]
        have : (if i = key a then some a else m i) = m i := by
          rw [if_neg (fun h => hk h.symm)]
        rw [this]

/-- A counting left fold starting at `n` adds `countP`. -/
theorem foldl_count_apply {α : Type} (p : α → Bool) (l : List α) (n : Nat) :
    l.foldl (fun n x => if p x then n + 1 else n) n = n + l.countP p := by
  induction l generalizing n with
  | nil => simp
  | cons a l ih =>
      simp only [List.foldl_cons, ih, List.countP_cons]
      by_cases hp : p a <;> simp [hp] <;> omega

/-- C9 kernel, subjects: last-write-wins indexing. -/
theorem buildSubjectsById_eq (subs : List Subject) (i : Int) :
    buildSubjectsById subs i = (subs.filter (fun sub => sub.id == i)).getLast? := by
  unfold buildSubjectsById
  rw [foldl_override_apply (fun sub => sub.id) subs (fun _ => none) i, Option.or_none]

/-- C9 kernel, collections: last-write-wins indexing. -/
theorem buildCollectionsById_eq (cols : List Collection) (i : Int) :
    buildCollectionsById cols i = (cols.filter (fun col => col.id == i)).getLast? := by
  unfold buildCollectionsById
  rw [foldl_override_apply (fun col => col.id) cols (fun _ => none) i, Option.or_none]

/-- Claim C2: over any completed run, each target falls into exactly one of
the five outcomes, so published + blocked + missing + embargoed counts plus
the number of silently skipped targets equals the number of input targets;
the record list is exactly as long as `record_count`. -/
theorem runTargets_partition (env : Env) (ts : List Target) (recs : List Rec)
    (c : Counters) (h : runTargets env ts = .ok (recs, c)) :
    c.record_count + c.blocked_record_count + c.missing_record_count +
      c.embargoed_record_count + silentSkipCount env ts = ts.length ∧
    recs.length = c.record_count := by
  induction ts generalizing recs c with
  | nil =>
      simp only [runTargets, Except.ok.injEq, Prod.mk.injEq] at h
      obtain ⟨h1, h2⟩ := h
      subst h1; subst h2
      simp [silentSkipCount]
  | cons t ts ih =>
      rw [runTargets] at h
      cases hp : processTarget env t with
      | error e => rw [hp] at h; cases h
      | ok o =>
        rw [hp] at h
        cases hr : runTargets env ts with
        | error e => rw [hr] at h; cases h
        | ok p =>
          obtain ⟨recs', c'⟩ := p
          rw [hr] at h
          obtain ⟨hsum, hlen⟩ := ih recs' c' hr
          cases o <;>
            simp only [Except.ok.injEq, Prod.mk.injEq] at h <;>
            obtain ⟨h1, h2⟩ := h <;> subst h1 <;> subst h2 <;>
            simp only [silentSkipCount, List.countP_cons, hp, List.length_cons] at * <;>
            simp_all <;> omega

/-- Engine lemma: a target that passes every gate is published, with every
record field characterised. -/
theorem processTarget_published_spec (env : Env) (t : Target) (cf url : String)
    (rest : List String) (tsStr : String) (dt : PyDateTime) (title : String)
    (sids : List Int)
    (hcf : t.crawl_frequency = some cf) (hnb : cf ≠ "NEVERCRAWL")
    (hurls : t.urls.getD [] = url :: rest)
    (hcdx : env.cdx url = some tsStr)
    (hdt : strptimeYmdHMS tsStr = some dt)
    (hem : ¬ timedeltaDays (env.nowSec - (toSecondsDT dt : Int)) ≤ 7)
    (htitle : t.title = some title)
    (hsids : t.subject_ids = some sids) :
    processTarget env t = .ok (.published
      { id := mkRecordId tsStr url
        date := isoformat dt
        url := url
        title := title
        rights := if t.isOA.getD false then freeRights else readingRoomRights
        publisher := env.registeredDomain url
        wayback_url := (if t.isOA.getD false then openWaybackBase else ldlsWaybackBase) ++
          tsStr ++ "/" ++ url
        subject := if sids.length > 0 then
            some (match env.subjectsById (sids.headD 0) with
                  | some sub0 => sub0.name
                  | none => none)
          else none }) := by
  simp only [processTarget, hcf, hurls, hcdx, hdt, htitle, hsids]
  rw [if_neg hnb, if_neg hem]
  cases hoa : t.isOA.getD false <;> simp [hoa]

/-- Engine lemma: a target that passes the blocked, URL and capture gates and
whose capture is at most 7 floor-days old is embargoed. -/
theorem processTarget_embargoed_spec (env : Env) (t : Target) (cf url : String)
    (rest : List String) (tsStr : String) (dt : PyDateTime)
    (hcf : t.crawl_frequency = some cf) (hnb : cf ≠ "NEVERCRAWL")
    (hurls : t.urls.getD [] = url :: rest)
    (hcdx : env.cdx url = some tsStr)
    (hdt : strptimeYmdHMS tsStr = some dt)
    (hem : timedeltaDays (env.nowSec - (toSecondsDT dt : Int)) ≤ 7) :
    processTarget env t = .ok .embargoed := by
  simp only [processTarget, hcf, hurls, hcdx, hdt]
  rw [if_neg hnb, if_pos hem]

/-- Engine lemma: the embargo gate in terms of raw elapsed seconds — the
capture is embargoed exactly when strictly less than 8 days (691200 s) have
elapsed. -/
theorem timedeltaDays_le_seven_iff (delta : Int) :
    timedeltaDays delta ≤ 7 ↔ delta < 691200 := by
  unfold timedeltaDays
  rw [Int.fdiv_eq_ediv _ (by norm_num)]
  constructor
  · intro h
    by_contra hlt
    push_neg at hlt
    have : (691200 : Int) / 86400 ≤ delta / 86400 :=
      Int.ediv_le_ediv (by norm_num) hlt
    norm_num at this
    omega
  · intro h
    have : delta ≤ 691199 := by omega
    have := Int.ediv_le_ediv (show (0 : Int) < 86400 by norm_num) this
    norm_num at this
    omega

/-- Engine lemma: inversion — if a target satisfying all gates published
record `r`, then `r` is exactly the characterised record. -/
theorem published_record_eq (env : Env) (t : Target) (cf url : String)
    (rest : List String) (tsStr : String) (dt : PyDateTime) (title : String)
    (sids : List Int) (r : Rec)
    (hcf : t.crawl_frequency = some cf) (hnb : cf ≠ "NEVERCRAWL")
    (hurls : t.urls.getD [] = url :: rest)
    (hcdx : env.cdx url = some tsStr)
    (hdt : strptimeYmdHMS tsStr = some dt)
    (hem : ¬ timedeltaDays (env.nowSec - (toSecondsDT dt : Int)) ≤ 7)
    (htitle : t.title = some title)
    (hsids : t.subject_ids = some sids)
    (hpub : processTarget env t = .ok (.published r)) :
    r = { id := mkRecordId tsStr url
          date := isoformat dt
          url := url
          title := title
          rights := if t.isOA.getD false then freeRights else readingRoomRights
          publisher := env.registeredDomain url
          wayback_url := (if t.isOA.getD false then openWaybackBase else ldlsWaybackBase) ++
            tsStr ++ "/" ++ url
          subject := if sids.length > 0 then
              some (match env.subjectsById (sids.headD 0) with
                    | some sub0 => sub0.name
                    | none => none)
            else none } := by
  have hspec := processTarget_published_spec env t cf url rest tsStr dt title sids
    hcf hnb hurls hcdx hdt hem htitle hsids
  rw [hpub] at hspec
  injection hspec with h1
  injection h1 with h2

/-- Claim C7: a target with an empty (or absent) URL list that is not
blocked produces no record and leaves every counter unchanged — prepending
it to any run leaves the run's result identical. -/
theorem no_url_silent_skip (env : Env) (t : Target) (ts : List Target) (cf : String)
    (hcf : t.crawl_frequency = some cf) (hnb : cf ≠ "NEVERCRAWL")
    (hurls : t.urls.getD [] = []) :
    runTargets env (t :: ts) = runTargets env ts := by
  have hp : processTarget env t = .ok .skippedNoUrl := by
    simp only [processTarget, hcf, hurls]
    rw [if_neg hnb]
  simp only [runTargets, hp]
  cases hr : runTargets env ts with
  | error e => rfl
  | ok p => obtain ⟨recs, c⟩ := p; rfl

/-- Witness for `no_url_silent_skip`: a crawlable target whose `urls` list
is empty is invisible to the run. -/
theorem no_url_silent_skip_witness :
    runTargets mixEnv [noUrlTarget] = runTargets mixEnv [] :=
  no_url_silent_skip mixEnv noUrlTarget [] "DAILY" rfl (by decide) rfl

/-- Engine lemma: parsing one built record element recovers the record. -/
theorem parseRecordElem_recordElem (r : Rec) : parseRecordElem (recordElem r) = some r := by
  obtain ⟨i, d, u, t, ri, p, w, s⟩ := r
  cases s <;> rfl

/-- Engine lemma: parsing the built element list recovers the record list. -/
theorem parseRecList_map (recs : List Rec) :
    parseRecList (recs.map recordElem) = some recs := by
  induction recs with
  | nil => rfl
  | cons r rs ih => simp [parseRecList, parseRecordElem_recordElem, ih]

/-- Claim C8: the serialized document has one `ListRecords` element with
exactly one `record` child per input record in input order (each child laid
out by `recordElem`: header/identifier then metadata children in the fixed
order source, publisher, title, date, rights, xlink href, optional
subject), and parsing the document back yields the records in original
order. -/
theorem xml_roundtrip (recs : List Rec) :
    ∃ lr, (buildXml recs).children = [lr] ∧ lr.tag = "ListRecords" ∧
      lr.children = recs.map recordElem ∧ lr.children.length = recs.length ∧
      parseListRecords (buildXml recs) = some recs := by
  refine ⟨.mk "ListRecords" none (recs.map recordElem), rfl, rfl, rfl, ?_, ?_⟩
  · show (recs.map recordElem).length = recs.length
    simp
  · exact parseRecList_map recs

/-- Claim C9: `collections_by_id` and `subjects_by_id` map each integer
identifier to the last entry of the input sequence bearing it
(last-write-wins), and the published counters count every input entry
(duplicates included) whose publish flag is true. -/
theorem indexing_last_write_wins :
    (∀ (cols : List Collection) (i : Int),
        buildCollectionsById cols i = (cols.filter (fun col => col.id == i)).getLast?) ∧
    (∀ (subs : List Subject) (i : Int),
        buildSubjectsById subs i = (subs.filter (fun sub => sub.id == i)).getLast?) ∧
    (∀ cols : List Collection,
        collectionPublishedCount cols = cols.countP (fun col => col.publish)) ∧
    (∀ subs : List Subject,
        subjectPublishedCount subs = subs.countP (fun sub => sub.publish)) := by
  refine ⟨buildCollectionsById_eq, buildSubjectsById_eq, fun cols => ?_, fun subs => ?_⟩
  · unfold collectionPublishedCount
    rw [foldl_count_apply]
    simp
  · unfold subjectPublishedCount
    rw [foldl_count_apply]
    simp

/-- Claim C1 (amended): for a target passing the blocked, URL and capture
gates, an elapsed time of at most 7 days (604800 s) between now and the
capture timestamp makes the target embargoed (counter incremented, no
record); the original claim's boundary is wrong — at exactly 7 days and
1 second the target is still embargoed (`timedelta.days` is 7), and
eligibility requires a full 8 days (691200 s) elapsed. -/
theorem embargo_gate_amended :
    (∀ (env : Env) (t : Target) (cf url : String) (rest : List String)
        (tsStr : String) (dt : PyDateTime),
        t.crawl_frequency = some cf → cf ≠ "NEVERCRAWL" →
        t.urls.getD [] = url :: rest → env.cdx url = some tsStr →
        strptimeYmdHMS tsStr = some dt →
        env.nowSec - (toSecondsDT dt : Int) ≤ 604800 →
        processTarget env t = .ok .embargoed) ∧
    (∀ (env : Env) (t : Target) (cf url : String) (rest : List String)
        (tsStr : String) (dt : PyDateTime) (title : String) (sids : List Int),
        t.crawl_frequency = some cf → cf ≠ "NEVERCRAWL" →
        t.urls.getD [] = url :: rest → env.cdx url = some tsStr →
        strptimeYmdHMS tsStr = some dt →
        t.title = some title → t.subject_ids = some sids →
        env.nowSec - (toSecondsDT dt : Int) = 691200 →
        isPublished (processTarget env t) = true) := by
  constructor
  · intro env t cf url rest tsStr dt hcf hnb hurls hcdx hdt hle
    exact processTarget_embargoed_spec env t cf url rest tsStr dt hcf hnb hurls hcdx hdt
      ((timedeltaDays_le_seven_iff _).mpr (by omega))
  · intro env t cf url rest tsStr dt title sids hcf hnb hurls hcdx hdt htitle hsids heq
    rw [processTarget_published_spec env t cf url rest tsStr dt title sids hcf hnb hurls
      hcdx hdt (by rw [timedeltaDays_le_seven_iff]; omega) htitle hsids]
    rfl

/-- Witness for `embargo_gate_amended`: capture 2013-04-01 12:00:00 —
exactly 7 days later the target is embargoed, exactly 8 days later it is
published. -/
theorem embargo_gate_amended_witness :
    processTarget (testEnv (some "20130401120000")
        ((toSecondsDT ⟨2013, 4, 1, 12, 0, 0⟩ : Int) + 604800) []) okTarget =
      .ok .embargoed ∧
    isPublished (processTarget pubEnv okTarget) = true := by
  constructor
  · exact embargo_gate_amended.1 _ okTarget "DAILY" "http://example.com/" []
      "20130401120000" ⟨2013, 4, 1, 12, 0, 0⟩ rfl (by decide) rfl rfl rfl (by decide)
  · exact embargo_gate_amended.2 pubEnv okTarget "DAILY" "http://example.com/" []
      "20130401120000" ⟨2013, 4, 1, 12, 0, 0⟩ "Example Site" [1] rfl (by decide) rfl rfl
      rfl rfl rfl (by decide)

/-- Counterexample to claim C1 as stated: a capture exactly 7 days and
1 second before now is NOT eligible — the run embargoes it (one embargoed
count, no record), because `timedelta(days=7, seconds=1).days = 7 <= 7`. -/
theorem embargo_boundary_counterexample :
    runTargets (testEnv (some "20130401120000")
        ((toSecondsDT ⟨2013, 4, 1, 12, 0, 0⟩ : Int) + 604801) []) [okTarget] =
      .ok ([], ⟨0, 0, 0, 1⟩) := by
  rfl

/-- Witness for `runTargets_partition`: a run over a blocked target, a
URL-less target, a capture-less target and an embargoed target — counters
0/1/1/1 plus one silent skip partition the four targets. -/
theorem runTargets_partition_witness :
    (Counters.mk 0 1 1 1).record_count + (Counters.mk 0 1 1 1).blocked_record_count +
      (Counters.mk 0 1 1 1).missing_record_count +
      (Counters.mk 0 1 1 1).embargoed_record_count +
      silentSkipCount mixEnv [blockedTarget, noUrlTarget, missingTarget, okTarget] =
      ([blockedTarget, noUrlTarget, missingTarget, okTarget] : List Target).length ∧
    ([] : List Rec).length = (Counters.mk 0 1 1 1).record_count :=
  runTargets_partition mixEnv [blockedTarget, noUrlTarget, missingTarget, okTarget]
    [] ⟨0, 1, 1, 1⟩ (by rfl)

/-- Claim C3: a published record's id is the capture timestamp string,
a slash, and the base64 of the MD5 digest of the UTF-8-encoded canonical
URL; it equals `mkRecordId tsStr url`, a pure function of the
(timestamp, URL) pair, hence byte-identical across repeated runs. -/
theorem record_id_format (env : Env) (t : Target) (cf url : String)
    (rest : List String) (tsStr : String) (dt : PyDateTime) (title : String)
    (sids : List Int) (r : Rec)
    (hcf : t.crawl_frequency = some cf) (hnb : cf ≠ "NEVERCRAWL")
    (hurls : t.urls.getD [] = url :: rest)
    (hcdx : env.cdx url = some tsStr)
    (hdt : strptimeYmdHMS tsStr = some dt)
    (hem : ¬ timedeltaDays (env.nowSec - (toSecondsDT dt : Int)) ≤ 7)
    (htitle : t.title = some title)
    (hsids : t.subject_ids = some sids)
    (hpub : processTarget env t = .ok (.published r)) :
    r.id = tsStr ++ "/" ++ b64encode (md5Bytes (utf8Encode url)) ∧
    r.id = mkRecordId tsStr url := by
  have h := published_record_eq env t cf url rest tsStr dt title sids r
    hcf hnb hurls hcdx hdt hem htitle hsids hpub
  subst h
  exact ⟨rfl, rfl⟩

/-- Witness for `record_id_format` on the concrete published record. -/
theorem record_id_format_witness :
    recW.id = "20130401120000" ++ "/" ++
      b64encode (md5Bytes (utf8Encode "http://example.com/")) ∧
    recW.id = mkRecordId "20130401120000" "http://example.com/" :=
  record_id_format pubEnv okTarget "DAILY" "http://example.com/" [] "20130401120000"
    ⟨2013, 4, 1, 12, 0, 0⟩ "Example Site" [1] recW rfl (by decide) rfl rfl rfl
    (by decide) rfl rfl (by rfl)

/-- Claim C4: published records of open-access targets carry the fixed
free-access rights string and a wayback URL that is exactly the public
replay base followed by the timestamp, a slash and the canonical URL;
all other published records carry the reading-rooms string and the
restricted base followed by the same suffix. -/
theorem access_tier_branching (env : Env) (t : Target) (cf url : String)
    (rest : List String) (tsStr : String) (dt : PyDateTime) (title : String)
    (sids : List Int) (r : Rec)
    (hcf : t.crawl_frequency = some cf) (hnb : cf ≠ "NEVERCRAWL")
    (hurls : t.urls.getD [] = url :: rest)
    (hcdx : env.cdx url = some tsStr)
    (hdt : strptimeYmdHMS tsStr = some dt)
    (hem : ¬ timedeltaDays (env.nowSec - (toSecondsDT dt : Int)) ≤ 7)
    (htitle : t.title = some title)
    (hsids : t.subject_ids = some sids)
    (hpub : processTarget env t = .ok (.published r)) :
    (t.isOA.getD false = true → r.rights = freeRights ∧
        r.wayback_url = openWaybackBase ++ tsStr ++ "/" ++ url) ∧
    (t.isOA.getD false = false → r.rights = readingRoomRights ∧
        r.wayback_url = ldlsWaybackBase ++ tsStr ++ "/" ++ url) := by
  have h := published_record_eq env t cf url rest tsStr dt title sids r
    hcf hnb hurls hcdx hdt hem htitle hsids hpub
  subst h
  constructor <;> intro hoa <;> simp [hoa]

/-- Witness for `access_tier_branching`: both access tiers at concrete
published records. -/
theorem access_tier_branching_witness :
    (recWOA.rights = freeRights ∧
      recWOA.wayback_url = openWaybackBase ++ "20130401120000" ++ "/" ++
        "http://example.com/") ∧
    (recW.rights = readingRoomRights ∧
      recW.wayback_url = ldlsWaybackBase ++ "20130401120000" ++ "/" ++
        "http://example.com/") :=
  ⟨(access_tier_branching pubEnv oaTarget "DAILY" "http://example.com/" []
      "20130401120000" ⟨2013, 4, 1, 12, 0, 0⟩ "Example Site" [1] recWOA rfl (by decide)
      rfl rfl rfl (by decide) rfl rfl (by rfl)).1 rfl,
   (access_tier_branching pubEnv okTarget "DAILY" "http://example.com/" []
      "20130401120000" ⟨2013, 4, 1, 12, 0, 0⟩ "Example Site" [1] recW rfl (by decide)
      rfl rfl rfl (by decide) rfl rfl (by rfl)).2 rfl⟩

/-- Claim C5 (amended): a target whose `title` field is missing does NOT
always survive: because lines 63 and 94 read `target['title']` directly,
the run aborts with a `KeyError` when such a target is blocked or when it
passes all four gates and reaches record construction; it is skipped
without aborting only at the no-URL gate (line 70 uses a defensive
`.get`), the missing-capture gate and the embargo gate. -/
theorem missing_title_aborts (env : Env) (t : Target) (ht : t.title = none) :
    (t.crawl_frequency = some "NEVERCRAWL" →
        processTarget env t = .error (.keyError "title")) ∧
    (∀ cf, t.crawl_frequency = some cf → cf ≠ "NEVERCRAWL" → t.urls.getD [] = [] →
        processTarget env t = .ok .skippedNoUrl) ∧
    (∀ (cf url : String) (rest : List String) (tsStr : String) (dt : PyDateTime),
        t.crawl_frequency = some cf → cf ≠ "NEVERCRAWL" →
        t.urls.getD [] = url :: rest → env.cdx url = some tsStr →
        strptimeYmdHMS tsStr = some dt →
        ¬ timedeltaDays (env.nowSec - (toSecondsDT dt : Int)) ≤ 7 →
        processTarget env t = .error (.keyError "title")) := by
  refine ⟨fun hcf => ?_, fun cf hcf hnb hurls => ?_, ?_⟩
  · simp [processTarget, hcf, ht]
  · simp only [processTarget, hcf, hurls]
    rw [if_neg hnb]
  · intro cf url rest tsStr dt hcf hnb hurls hcdx hdt hem
    simp only [processTarget, hcf, hurls, hcdx, hdt, ht]
    rw [if_neg hnb, if_neg hem]

/-- Witness for `missing_title_aborts`: the abort at record construction
and the silent skip at the no-URL gate, on concrete inputs. -/
theorem missing_title_aborts_witness :
    processTarget pubEnv noTitleTarget = .error (.keyError "title") ∧
    processTarget pubEnv { noTitleTarget with urls := some [] } = .ok .skippedNoUrl :=
  ⟨(missing_title_aborts pubEnv noTitleTarget rfl).2.2 "DAILY" "http://example.com/" []
      "20130401120000" ⟨2013, 4, 1, 12, 0, 0⟩ rfl (by decide) rfl rfl rfl (by decide),
   (missing_title_aborts pubEnv { noTitleTarget with urls := some [] } rfl).2.1
      "DAILY" rfl (by decide) rfl⟩

/-- Counterexample to claim C5 as stated: a target with no `title` that
passes the blocked, URL, capture and embargo gates aborts the whole run
with a `KeyError` — it is not silently skipped. -/
theorem missing_title_abort_counterexample :
    runTargets pubEnv [noTitleTarget] = .error (.keyError "title") := by
  rfl

/-- Claim C6 (amended): for a published record, the `subject` key is absent
only when the target's subject-identifier list is empty; when the list is
nonempty the key is always present — holding the subject's name when the
first identifier resolves in `subjects_by_id`, and holding `None` (an
explicit null, lines 113-114: `sub0.get('name', None)` on the `{}`
default) when the lookup misses. -/
theorem subject_field_amended (env : Env) (t : Target) (cf url : String)
    (rest : List String) (tsStr : String) (dt : PyDateTime) (title : String)
    (sids : List Int) (r : Rec)
    (hcf : t.crawl_frequency = some cf) (hnb : cf ≠ "NEVERCRAWL")
    (hurls : t.urls.getD [] = url :: rest)
    (hcdx : env.cdx url = some tsStr)
    (hdt : strptimeYmdHMS tsStr = some dt)
    (hem : ¬ timedeltaDays (env.nowSec - (toSecondsDT dt : Int)) ≤ 7)
    (htitle : t.title = some title)
    (hsids : t.subject_ids = some sids)
    (hpub : processTarget env t = .ok (.published r)) :
    (sids = [] → r.subject = none) ∧
    (∀ (k : Int) (ks : List Int) (sub : Subject), sids = k :: ks →
        env.subjectsById k = some sub → r.subject = some sub.name) ∧
    (∀ (k : Int) (ks : List Int), sids = k :: ks →
        env.subjectsById k = none → r.subject = some none) := by
  have h := published_record_eq env t cf url rest tsStr dt title sids r
    hcf hnb hurls hcdx hdt hem htitle hsids hpub
  subst h
  refine ⟨fun hs => by simp [hs], fun k ks sub hs hk => ?_, fun k ks hs hk => ?_⟩
  · subst hs; simp [hk]
  · subst hs; simp [hk]

/-- Witness for `subject_field_amended`: resolved lookup, empty identifier
list, and missed lookup, each on a concrete published record. -/
theorem subject_field_amended_witness :
    recW.subject = some politicsSubject.name ∧
    recWEmptySub.subject = none ∧
    recWMissSub.subject = some none :=
  ⟨(subject_field_amended pubEnv okTarget "DAILY" "http://example.com/" []
      "20130401120000" ⟨2013, 4, 1, 12, 0, 0⟩ "Example Site" [1] recW rfl (by decide)
      rfl rfl rfl (by decide) rfl rfl (by rfl)).2.1 1 [] politicsSubject rfl rfl,
   (subject_field_amended pubEnv emptySubTarget "DAILY" "http://example.com/" []
      "20130401120000" ⟨2013, 4, 1, 12, 0, 0⟩ "Example Site" [] recWEmptySub rfl
      (by decide) rfl rfl rfl (by decide) rfl rfl (by rfl)).1 rfl,
   (subject_field_amended missEnv okTarget "DAILY" "http://example.com/" []
      "20130401120000" ⟨2013, 4, 1, 12, 0, 0⟩ "Example Site" [1] recWMissSub rfl
      (by decide) rfl rfl rfl (by decide) rfl rfl (by rfl)).2.2 1 [] rfl rfl⟩

/-- Counterexample to claim C6 as stated: when the subject lookup misses,
the published record's `subject` key is present with a null value
(`some none`), not absent as the claim requires. -/
theorem subject_missing_lookup_counterexample :
    (runTargets missEnv [okTarget]).toOption.map (fun p => p.1.map Rec.subject) =
      some [some none] := by
  rfl

/-- Claim C10 (amended): a capture-index string rejected by
`strptime('%Y%m%d%H%M%S')` — e.g. any 14-digit string with out-of-range
fields — raises ValueError and aborts the run (unlike a `None` lookup,
which increments the missing counter and skips), but not every string that
fails to be a 14-digit timestamp aborts: strptime's variable-width fields
accept some shorter digit strings (see the counterexample). -/
theorem strptime_failure_aborts :
    (∀ (env : Env) (t : Target) (cf url : String) (rest : List String) (s : String),
        t.crawl_frequency = some cf → cf ≠ "NEVERCRAWL" →
        t.urls.getD [] = url :: rest → env.cdx url = some s →
        strptimeYmdHMS s = none →
        processTarget env t = .error (.valueError "time data does not match format")) ∧
    (∀ (env : Env) (t : Target) (cf url : String) (rest : List String) (b : Bool),
        t.crawl_frequency = some cf → cf ≠ "NEVERCRAWL" →
        t.urls.getD [] = url :: rest → env.cdx url = none → t.isNPLD = some b →
        processTarget env t = .ok .missing) := by
  constructor
  · intro env t cf url rest s hcf hnb hurls hcdx hbad
    simp only [processTarget, hcf, hurls, hcdx, hbad]
    rw [if_neg hnb]
  · intro env t cf url rest b hcf hnb hurls hcdx hnpld
    simp only [processTarget, hcf, hurls, hcdx, hnpld]
    rw [if_neg hnb]

/-- Witness for `strptime_failure_aborts`: month 13 aborts with ValueError
(CPython: unconverted data remains), a missing capture counts as missing. -/
theorem strptime_failure_aborts_witness :
    processTarget (testEnv (some "20201301000000") 0 []) okTarget =
      .error (.valueError "time data does not match format") ∧
    processTarget (testEnv none 0 []) okTarget = .ok .missing :=
  ⟨strptime_failure_aborts.1 (testEnv (some "20201301000000") 0 []) okTarget "DAILY"
      "http://example.com/" [] "20201301000000" rfl (by decide) rfl rfl rfl,
   strptime_failure_aborts.2 (testEnv none 0 []) okTarget "DAILY"
      "http://example.com/" [] true rfl (by decide) rfl rfl rfl⟩

/-- Counterexample to claim C10 as stated: the 10-character lookup result
"2020111122" is not a 14-digit YYYYMMDDHHMMSS timestamp, yet the run does
not abort — CPython's strptime parses it as 2020-11-01 01:02:02 through
single-digit field widths, and a record is published. -/
theorem strptime_flexible_counterexample :
    ("2020111122".length = 10) ∧
    (runTargets (testEnv (some "2020111122") 99999999999 []) [okTarget]).toOption.map
        (fun p => (p.1.map Rec.date, p.2)) =
      some (["2020-11-01T01:02:02"], ⟨1, 0, 0, 0⟩) := by
  exact ⟨rfl, rfl⟩
